import Mathlib

/-!
A shallow embedding of the dependency-injection container in
`src/knit-di/src/container.ts` (package `@msiviero/knit`).

Modelling decisions, each tracking a concrete piece of the source:

* An `InjectionToken` is either a constructible class (identified here by a
  numeric id, standing for the reference identity of the constructor object)
  or a named string token (`Token`).
* The declaration-time metadata that `reflect-metadata` attaches to a class
  (`design:paramtypes` and the `TOKEN_KEY` override table written by the
  `@inject` decorator) is modelled as an environment `Env` mapping each class
  id to its `ClassInfo` (class name, declared parameter tokens, and the
  sparse `paramIdx -> token` override table).
* A JS object is a `Value.obj cid alloc args`: its class id, a globally unique
  allocation number (reference identity: two objects are `===` exactly when
  their allocation numbers coincide, and in any single run equal allocation
  numbers force equal structure), and the argument list its constructor
  received.  `Value.undef` is the JS `undefined` produced when spreading a
  hole of a sparse array.
* Raw providers (the zero-argument factories passed to `provide`, and the
  `() => this.create(type)` closure built by `register`) are `RawProvider`.
  `const v` is a closure returning a pre-existing value, `fresh cid` is a
  closure allocating a fresh object of class `cid` with no arguments, and
  `createOf cid` is the `register`-built closure that runs `Container.create`.
* The two `Map`s of the container (`instances`, `dependencies`) are
  association lists looked up by decidable token equality (JS `Map` key
  identity).  `Map.set` is `setAssoc` (replace if present, else append),
  matching insertion-order semantics.
* The singleton wrapper built by `Container.singletonProvider` is interpreted
  by `resolveF`: an entry stores its raw provider together with the scope it
  was registered under, and `resolveF` performs the memoization check exactly
  where the wrapper closure does.
* Allocation is threaded as an explicit counter `a : Nat` (the JS heap is
  process-global, so the counter is outside the container and is shared by
  independent containers).
* The recursion `resolve -> provider -> create -> resolve` has no cycle
  detection in the source, so the interpreter takes fuel; `Err.outOfFuel`
  corresponds to the stack overflow an actual dependency cycle produces.
* A thrown JS `Error` is an `Err`.  `unregisteredToken s` carries the string
  that the template literal interpolates for `type.name` in
  `Error resolving type ...` (the class name for a class token, and the
  string "undefined" for a named token, since a JS string has no `name`
  property).  `duplicateRegistration t` is the error thrown by `provide`.
-/

inductive Token where
  | cls : Nat → Token
  | named : String → Token
deriving DecidableEq, Repr

/-- Declaration-time metadata of a class: its `name` property, the
`design:paramtypes` list and the `TOKEN_KEY` override table. -/
structure ClassInfo where
  nm : String
  paramtypes : List Token
  overrides : List (Nat × Token)
deriving DecidableEq, Repr

/-- The ambient class table (reflect-metadata attached per constructor). -/
def Env : Type := Nat → ClassInfo

inductive Value where
  | undef : Value
  | obj : Nat → Nat → List Value → Value

inductive RawProvider where
  | const : Value → RawProvider
  | fresh : Nat → RawProvider
  | createOf : Nat → RawProvider

inductive Scope where
  | Singleton : Scope
  | Prototype : Scope
deriving DecidableEq, Repr

/-- A stored registry entry: the raw provider plus the scope it was wrapped
under in `Container.provide`'s `switch`. -/
structure Entry where
  raw : RawProvider
  scope : Scope

structure Container where
  instances : List (Token × Value)
  dependencies : List (Token × Entry)

def Container.empty : Container := { instances := [], dependencies := [] }

/-- Association-list lookup by decidable token equality (JS `Map.get`). -/
def lookupTok {β : Type} : List (Token × β) → Token → Option β
  | [], _ => none
  | (k, v) :: rest, t => if k = t then some v else lookupTok rest t

/-- JS `Map.set`: replace the binding if the key is present, else append. -/
def setAssoc {β : Type} : List (Token × β) → Token → β → List (Token × β)
  | [], t, v => [(t, v)]
  | (k, w) :: rest, t, v =>
      if k = t then (t, v) :: rest else (k, w) :: setAssoc rest t v

/-- What the template literal interpolates for `type.name` in the error of
`Container.resolve`: the class name, or "undefined" for a string token. -/
def errName (env : Env) : Token → String
  | Token.cls cid => (env cid).nm
  | Token.named _ => "undefined"

inductive Err where
  | unregisteredToken : String → Err
  | duplicateRegistration : Token → Err
  | outOfFuel : Err
deriving DecidableEq, Repr

/-- `lookupNat` over the override table (JS object key lookup). -/
def lookupNat {β : Type} : List (Nat × β) → Nat → Option β
  | [], _ => none
  | (k, v) :: rest, i => if k = i then some v else lookupNat rest i

/-- Length of the JS `params` array after the override writes of
`Container.getParams`: `max` of the declared count and the largest override
index plus one (an out-of-range key-write extends the array). -/
def ovLen (ovr : List (Nat × Token)) : Nat :=
  ovr.foldr (fun p m => max (p.1 + 1) m) 0

/-- Content of slot `i` of the `params` array after the override writes:
the override token if one targets `i`, else the declared parameter type if
`i` is within the declared count, else a hole. -/
def slotOf (params : List Token) (ovr : List (Nat × Token)) (i : Nat) : Option Token :=
  match lookupNat ovr i with
  | some t => some t
  | none => params.get? i

/-- `Container.getParams`: the (possibly sparse) parameter array, a hole
rendered as `none`.  `Array.prototype.map` skips holes and the subsequent
spread turns them into `undefined`; `resolveParams` below consumes this
list accordingly. -/
def getParams (info : ClassInfo) : List (Option Token) :=
  (List.range (max info.paramtypes.length (ovLen info.overrides))).map
    (slotOf info.paramtypes info.overrides)

/-- Resolve the slots of the parameter array left to right with the given
resolver: an assigned slot is resolved through the container, a hole
contributes the `undefined` that spreading it produces.  This is the
`params.map((dependency) => this.resolve(dependency))` of `Container.create`
combined with the spread in `new ctor(...)`. -/
def resolveList (res : Nat → Container → Token → Except Err (Value × Nat × Container)) :
    Nat → Container → List (Option Token) → Except Err (List Value × Nat × Container)
  | a, c, [] => Except.ok ([], a, c)
  | a, c, none :: rest =>
    match resolveList res a c rest with
    | Except.error err => Except.error err
    | Except.ok (vs, a', c') => Except.ok (Value.undef :: vs, a', c')
  | a, c, some t :: rest =>
    match res a c t with
    | Except.error err => Except.error err
    | Except.ok (v, a', c') =>
      match resolveList res a' c' rest with
      | Except.error err => Except.error err
      | Except.ok (vs, a'', c'') => Except.ok (v :: vs, a'', c'')

/-- Run a raw provider with the given resolver for recursive lookups.
`createOf cid` is `Container.create`: build the parameter array via
`getParams`, resolve each assigned slot in index order, and invoke the
constructor with the spread argument list, allocating a fresh object. -/
def runProv (env : Env) (res : Nat → Container → Token → Except Err (Value × Nat × Container))
    (a : Nat) (c : Container) : RawProvider → Except Err (Value × Nat × Container)
  | RawProvider.const v => Except.ok (v, a, c)
  | RawProvider.fresh cid => Except.ok (Value.obj cid a [], a + 1, c)
  | RawProvider.createOf cid =>
    match resolveList res a c (getParams (env cid)) with
    | Except.error err => Except.error err
    | Except.ok (args, a', c') => Except.ok (Value.obj cid a' args, a' + 1, c')

/-- `Container.resolve`, with the singleton wrapper of
`Container.singletonProvider` interpreted in place: look the token up in
`dependencies`, throw `Error resolving type ...` if absent, run the stored
provider (memoized through `instances` when the entry was registered with
scope Singleton).  The fuel bounds the recursion depth; running out of fuel
corresponds to the stack overflow an unguarded dependency cycle produces. -/
def resolveF (env : Env) : Nat → Nat → Container → Token →
    Except Err (Value × Nat × Container)
  | 0, _, _, _ => Except.error Err.outOfFuel
  | Nat.succ fuel, a, c, t =>
    match lookupTok c.dependencies t with
    | none => Except.error (Err.unregisteredToken (errName env t))
    | some e =>
      match e.scope with
      | Scope.Prototype => runProv env (resolveF env fuel) a c e.raw
      | Scope.Singleton =>
        match lookupTok c.instances t with
        | some v => Except.ok (v, a, c)
        | none =>
          match runProv env (resolveF env fuel) a c e.raw with
          | Except.error err => Except.error err
          | Except.ok (v, a', c') =>
              Except.ok (v, a', { c' with instances := setAssoc c'.instances t v })

/-- `Container.provide`, as state plus thrown-error pair: the duplicate check
happens before any mutation, so the error branch returns the container
untouched.  On success the entry is stored, tagged with the scope under which
the `switch` wrapped it. -/
def provideEx (c : Container) (t : Token) (raw : RawProvider) (s : Scope) :
    Container × Option Err :=
  match lookupTok c.dependencies t with
  | some _ => (c, some (Err.duplicateRegistration t))
  | none =>
      ({ c with dependencies := setAssoc c.dependencies t { raw := raw, scope := s } }, none)

/-- `Container.provide` in `Except` form. -/
def provide (c : Container) (t : Token) (raw : RawProvider) (s : Scope) :
    Except Err Container :=
  match provideEx c t raw s with
  | (c', none) => Except.ok c'
  | (_, some e) => Except.error e

/-- `Container.register`: `provide(type, () => this.create(type), scope)`. -/
def Container.register (c : Container) (cid : Nat) (s : Scope) : Except Err Container :=
  provide c (Token.cls cid) (RawProvider.createOf cid) s

theorem lookupTok_setAssoc_self {β : Type} (l : List (Token × β)) (t : Token) (v : β) :
    lookupTok (setAssoc l t v) t = some v := by
  induction l with
  | nil => simp [setAssoc, lookupTok]
  | cons p rest ih =>
    obtain ⟨k, w⟩ := p
    by_cases h : k = t
    · simp [setAssoc, h, lookupTok]
    · simp [setAssoc, h, lookupTok, ih]

theorem lookupTok_setAssoc_ne {β : Type} (l : List (Token × β)) (t t' : Token) (v : β)
    (h : t ≠ t') : lookupTok (setAssoc l t v) t' = lookupTok l t' := by
  induction l with
  | nil => simp [setAssoc, lookupTok, h]
  | cons p rest ih =>
    obtain ⟨k, w⟩ := p
    by_cases hk : k = t
    · subst hk; simp [setAssoc, lookupTok, h]
    · simp [setAssoc, hk, lookupTok, ih]

theorem resolveList_deps
    (res : Nat → Container → Token → Except Err (Value × Nat × Container))
    (hres : ∀ a c t v a' c', res a c t = Except.ok (v, a', c') →
      c'.dependencies = c.dependencies) :
    ∀ (slots : List (Option Token)) (a : Nat) (c : Container)
      (vs : List Value) (a' : Nat) (c' : Container),
      resolveList res a c slots = Except.ok (vs, a', c') →
      c'.dependencies = c.dependencies := by
  intro slots
  induction slots with
  | nil =>
    intro a c vs a' c' h
    unfold resolveList at h
    injection h with h1
    injection h1 with hv h2
    injection h2 with ha hc
    subst hc; rfl
  | cons s rest ih =>
    intro a c vs a' c' h
    cases s with
    | none =>
      unfold resolveList at h
      cases hps : resolveList res a c rest with
      | error err => rw [hps] at h; exact absurd h (by simp)
      | ok r =>
        obtain ⟨vs0, a0, c0⟩ := r
        rw [hps] at h
        simp only [] at h
        injection h with h1
        injection h1 with hv h2
        injection h2 with ha hc
        subst hc
        exact ih a c vs0 a0 c0 hps
    | some t =>
      unfold resolveList at h
      cases hr : res a c t with
      | error err => rw [hr] at h; exact absurd h (by simp)
      | ok r =>
        obtain ⟨v0, a0, c0⟩ := r
        rw [hr] at h
        simp only [] at h
        cases hps : resolveList res a0 c0 rest with
        | error err => rw [hps] at h; exact absurd h (by simp)
        | ok r2 =>
          obtain ⟨vs1, a1, c1⟩ := r2
          rw [hps] at h
          simp only [] at h
          injection h with h1
          injection h1 with hv h2
          injection h2 with ha hc
          subst hc
          rw [ih a0 c0 vs1 a1 c1 hps, hres a c t v0 a0 c0 hr]

theorem runProv_deps (env : Env)
    (res : Nat → Container → Token → Except Err (Value × Nat × Container))
    (hres : ∀ a c t v a' c', res a c t = Except.ok (v, a', c') →
      c'.dependencies = c.dependencies)
    (a : Nat) (c : Container) (r : RawProvider) (v : Value) (a' : Nat) (c' : Container)
    (h : runProv env res a c r = Except.ok (v, a', c')) :
    c'.dependencies = c.dependencies := by
  cases r with
  | const w =>
    unfold runProv at h
    injection h with h1
    injection h1 with hv h2
    injection h2 with ha hc
    subst hc; rfl
  | fresh cid =>
    unfold runProv at h
    injection h with h1
    injection h1 with hv h2
    injection h2 with ha hc
    subst hc; rfl
  | createOf cid =>
    unfold runProv at h
    simp only [] at h
    cases hps : resolveList res a c (getParams (env cid)) with
    | error err => rw [hps] at h; exact absurd h (by simp)
    | ok r2 =>
      obtain ⟨args, a0, c0⟩ := r2
      rw [hps] at h
      simp only [] at h
      injection h with h1
      injection h1 with hv h2
      injection h2 with ha hc
      subst hc
      exact resolveList_deps res hres (getParams (env cid)) a c args a0 c0 hps

theorem resolveF_deps (env : Env) : ∀ (f a : Nat) (c : Container) (t : Token)
    (v : Value) (a' : Nat) (c' : Container),
    resolveF env f a c t = Except.ok (v, a', c') → c'.dependencies = c.dependencies := by
  intro f
  induction f with
  | zero => intro a c t v a' c' h; exact absurd h (by simp [resolveF])
  | succ f ih =>
    intro a c t v a' c' h
    unfold resolveF at h
    cases hdep : lookupTok c.dependencies t with
    | none => rw [hdep] at h; exact absurd h (by simp)
    | some e =>
      rw [hdep] at h
      simp only [] at h
      cases hs : e.scope with
      | Prototype =>
        rw [hs] at h
        simp only [] at h
        exact runProv_deps env (resolveF env f) (ih) a c e.raw v a' c' h
      | Singleton =>
        rw [hs] at h
        simp only [] at h
        cases hins : lookupTok c.instances t with
        | some w =>
          rw [hins] at h
          simp only [] at h
          injection h with h1
          injection h1 with hv h2
          injection h2 with ha hc
          subst hc; rfl
        | none =>
          rw [hins] at h
          simp only [] at h
          cases hrun : runProv env (resolveF env f) a c e.raw with
          | error err => rw [hrun] at h; exact absurd h (by simp)
          | ok r =>
            obtain ⟨v0, a0, c0⟩ := r
            rw [hrun] at h
            simp only [] at h
            injection h with h1
            injection h1 with hv h2
            injection h2 with ha hc
            subst hc
            exact runProv_deps env (resolveF env f) (ih) a c e.raw v0 a0 c0 hrun

theorem resolveF_unreg (env : Env) (f a : Nat) (c : Container) (t : Token)
    (h : lookupTok c.dependencies t = none) :
    resolveF env (f + 1) a c t = Except.error (Err.unregisteredToken (errName env t)) := by
  simp only [resolveF, h]

theorem resolveF_proto (env : Env) (f a : Nat) (c : Container) (t : Token) (e : Entry)
    (h : lookupTok c.dependencies t = some e) (hs : e.scope = Scope.Prototype) :
    resolveF env (f + 1) a c t = runProv env (resolveF env f) a c e.raw := by
  simp only [resolveF, h, hs]

theorem resolveF_cached (env : Env) (f a : Nat) (c : Container) (t : Token) (e : Entry)
    (v : Value) (h : lookupTok c.dependencies t = some e) (hs : e.scope = Scope.Singleton)
    (hv : lookupTok c.instances t = some v) :
    resolveF env (f + 1) a c t = Except.ok (v, a, c) := by
  simp only [resolveF, h, hs, hv]

theorem resolveF_miss (env : Env) (f a : Nat) (c : Container) (t : Token) (e : Entry)
    (h : lookupTok c.dependencies t = some e) (hs : e.scope = Scope.Singleton)
    (hv : lookupTok c.instances t = none) :
    resolveF env (f + 1) a c t =
      match runProv env (resolveF env f) a c e.raw with
      | Except.error err => Except.error err
      | Except.ok (v, a', c') =>
          Except.ok (v, a', { c' with instances := setAssoc c'.instances t v }) := by
  simp only [resolveF, h, hs, hv]

theorem provideEx_instances (c0 : Container) (t : Token) (r : RawProvider) (s : Scope) :
    ((provideEx c0 t r s).1).instances = c0.instances := by
  unfold provideEx
  cases lookupTok c0.dependencies t <;> rfl

/-- C1: for a token `t` registered with scope Singleton, a successful
`resolve(t)` leaves the produced instance in the cache keyed by `t`, and
every subsequent `resolve(t)` returns that identity-same instance with the
container state and the allocation counter unchanged (so the raw provider is
not invoked again); registration itself never touches the instance cache
(the provider runs lazily, at the first resolve), and when the first resolve
found the cache empty and the raw provider allocates a fresh object, exactly
one allocation happened during that first call. -/
theorem singleton_scope_memoizes (env : Env) (f a : Nat) (c : Container) (t : Token)
    (e : Entry) (v : Value) (a' : Nat) (c' : Container)
    (hdep : lookupTok c.dependencies t = some e)
    (hS : e.scope = Scope.Singleton)
    (hres : resolveF env (f + 1) a c t = Except.ok (v, a', c')) :
    lookupTok c'.instances t = some v ∧
    (∀ f2, resolveF env (f2 + 1) a' c' t = Except.ok (v, a', c')) ∧
    (∀ c0 r s, ((provideEx c0 t r s).1).instances = c0.instances) ∧
    (lookupTok c.instances t = none → ∀ cid, e.raw = RawProvider.fresh cid →
      v = Value.obj cid a [] ∧ a' = a + 1) := by
  cases hins : lookupTok c.instances t with
  | some w =>
    rw [resolveF_cached env f a c t e w hdep hS hins] at hres
    simp only [Except.ok.injEq, Prod.mk.injEq] at hres
    obtain ⟨rfl, rfl, rfl⟩ := hres
    refine ⟨hins, ?_, ?_, ?_⟩
    · intro f2
      exact resolveF_cached env f2 a c t e w hdep hS hins
    · intro c0 r s
      exact provideEx_instances c0 t r s
    · intro hn
      simp at hn
  | none =>
    rw [resolveF_miss env f a c t e hdep hS hins] at hres
    cases hrun : runProv env (resolveF env f) a c e.raw with
    | error err => rw [hrun] at hres; exact absurd hres (by simp)
    | ok r =>
      obtain ⟨v0, a0, c0⟩ := r
      rw [hrun] at hres
      simp only [Except.ok.injEq, Prod.mk.injEq] at hres
      obtain ⟨rfl, rfl, rfl⟩ := hres
      have hdeps0 : c0.dependencies = c.dependencies :=
        runProv_deps env (resolveF env f) (resolveF_deps env f) a c e.raw v0 a0 c0 hrun
      refine ⟨lookupTok_setAssoc_self c0.instances t v0, ?_, ?_, ?_⟩
      · intro f2
        apply resolveF_cached env f2 a0 _ t e
        · show lookupTok c0.dependencies t = some e
          rw [hdeps0]; exact hdep
        · exact hS
        · exact lookupTok_setAssoc_self c0.instances t v0
      · intro cc r s
        exact provideEx_instances cc t r s
      · intro _ cid hraw
        rw [hraw] at hrun
        unfold runProv at hrun
        simp only [Except.ok.injEq, Prod.mk.injEq] at hrun
        obtain ⟨h1, h2, h3⟩ := hrun
        exact ⟨h1.symm, h2.symm⟩

/-- A one-class environment used by concrete witnesses. -/
def envW1 : Env := fun _ => { nm := "A", paramtypes := [], overrides := [] }

/-- Witness container: class token 0 provided with a fresh-object provider,
scope Singleton. -/
def cW1 : Container :=
  (provideEx Container.empty (Token.cls 0) (RawProvider.fresh 0) Scope.Singleton).1

/-- State of `cW1` after the first resolve of token 0. -/
def cW1' : Container := { cW1 with instances := [(Token.cls 0, Value.obj 0 0 [])] }

theorem singleton_scope_memoizes_witness :
    lookupTok cW1'.instances (Token.cls 0) = some (Value.obj 0 0 []) ∧
    (∀ f2, resolveF envW1 (f2 + 1) 1 cW1' (Token.cls 0) =
      Except.ok (Value.obj 0 0 [], 1, cW1')) ∧
    (∀ c0 r s, ((provideEx c0 (Token.cls 0) r s).1).instances = c0.instances) ∧
    (lookupTok cW1.instances (Token.cls 0) = none → ∀ cid,
      (Entry.mk (RawProvider.fresh 0) Scope.Singleton).raw = RawProvider.fresh cid →
      Value.obj 0 0 [] = Value.obj cid 0 [] ∧ 1 = 0 + 1) :=
  singleton_scope_memoizes envW1 0 0 cW1 (Token.cls 0)
    ⟨RawProvider.fresh 0, Scope.Singleton⟩ (Value.obj 0 0 []) 1 cW1' rfl rfl rfl
/-- C3: if a token has no provider yet, `provide` succeeds; afterwards every
further `provide` (hence also `register`) for the same token fails with the
duplicate-registration error, for any provider and any scope. -/
theorem provide_rejects_duplicate (c : Container) (t : Token) (r : RawProvider) (s : Scope)
    (hnone : lookupTok c.dependencies t = none) :
    ∃ c', provide c t r s = Except.ok c' ∧
      ∀ r' s', provide c' t r' s' = Except.error (Err.duplicateRegistration t) := by
  refine ⟨{ c with dependencies := setAssoc c.dependencies t { raw := r, scope := s } }, ?_, ?_⟩
  · simp [provide, provideEx, hnone]
  · intro r' s'
    simp [provide, provideEx, lookupTok_setAssoc_self]

/-- C4: resolving a token that was never provided fails with the
unregistered-token error, and the same error propagates when the
unregistered token is reached during recursive parameter resolution of a
registered type whose declared parameter it is. -/
theorem resolve_unregistered_fails (env : Env) (f a : Nat) (c : Container) (t : Token)
    (hnone : lookupTok c.dependencies t = none) :
    resolveF env (f + 1) a c t = Except.error (Err.unregisteredToken (errName env t)) ∧
    (∀ (bid : Nat) (nm : String) (e : Entry),
      env bid = { nm := nm, paramtypes := [t], overrides := [] } →
      lookupTok c.dependencies (Token.cls bid) = some e →
      e.raw = RawProvider.createOf bid →
      lookupTok c.instances (Token.cls bid) = none →
      resolveF env (f + 2) a c (Token.cls bid) =
        Except.error (Err.unregisteredToken (errName env t))) := by
  have h1 : resolveF env (f + 1) a c t = Except.error (Err.unregisteredToken (errName env t)) :=
    resolveF_unreg env f a c t hnone
  refine ⟨h1, ?_⟩
  intro bid nm e henv hdep hraw hmiss
  have hrun : runProv env (resolveF env (f + 1)) a c e.raw =
      Except.error (Err.unregisteredToken (errName env t)) := by
    rw [hraw]
    unfold runProv
    simp only []
    rw [henv]
    have hgp : getParams { nm := nm, paramtypes := [t], overrides := [] } = [some t] := rfl
    rw [hgp]
    simp [resolveList, h1]
  cases hs : e.scope with
  | Prototype =>
    have := resolveF_proto env (f + 1) a c (Token.cls bid) e hdep hs
    rw [show f + 2 = f + 1 + 1 from rfl, this, hrun]
  | Singleton =>
    have := resolveF_miss env (f + 1) a c (Token.cls bid) e hdep hs hmiss
    rw [show f + 2 = f + 1 + 1 from rfl, this, hrun]

/-- C5: a token registered with scope Prototype is resolved by re-invoking
the raw provider on every call, with no caching; with a fresh-object
provider, two consecutive resolves return distinct (not identity-equal)
instances and leave the container unchanged. -/
theorem prototype_scope_fresh_instances (env : Env) (f a : Nat) (c : Container) (t : Token) (e : Entry)
    (hdep : lookupTok c.dependencies t = some e) (hs : e.scope = Scope.Prototype) :
    resolveF env (f + 1) a c t = runProv env (resolveF env f) a c e.raw ∧
    (∀ cid, e.raw = RawProvider.fresh cid →
      resolveF env (f + 1) a c t = Except.ok (Value.obj cid a [], a + 1, c) ∧
      resolveF env (f + 1) (a + 1) c t = Except.ok (Value.obj cid (a + 1) [], a + 2, c) ∧
      Value.obj cid a [] ≠ Value.obj cid (a + 1) []) := by
  refine ⟨resolveF_proto env f a c t e hdep hs, ?_⟩
  intro cid hraw
  refine ⟨?_, ?_, ?_⟩
  · rw [resolveF_proto env f a c t e hdep hs, hraw]; rfl
  · rw [resolveF_proto env f (a + 1) c t e hdep hs, hraw]; rfl
  · intro hcontra
    injection hcontra with h1 h2 h3
    omega

theorem provide_rejects_duplicate_witness :
    ∃ c', provide Container.empty (Token.cls 0) (RawProvider.createOf 0) Scope.Singleton =
      Except.ok c' ∧
      ∀ r' s', provide c' (Token.cls 0) r' s' =
        Except.error (Err.duplicateRegistration (Token.cls 0)) :=
  provide_rejects_duplicate Container.empty (Token.cls 0) (RawProvider.createOf 0)
    Scope.Singleton rfl

/-- Environment with class 1 declaring class 0 as its only parameter. -/
def envW4 : Env := fun cid =>
  if cid = 1 then { nm := "B", paramtypes := [Token.cls 0], overrides := [] }
  else { nm := "A", paramtypes := [], overrides := [] }

/-- Container with only class 1 registered (class 0 left unregistered). -/
def cW4 : Container :=
  (provideEx Container.empty (Token.cls 1) (RawProvider.createOf 1) Scope.Singleton).1

theorem resolve_unregistered_fails_witness :
    resolveF envW4 1 0 cW4 (Token.cls 0) =
      Except.error (Err.unregisteredToken (errName envW4 (Token.cls 0))) ∧
    (∀ (bid : Nat) (nm : String) (e : Entry),
      envW4 bid = { nm := nm, paramtypes := [Token.cls 0], overrides := [] } →
      lookupTok cW4.dependencies (Token.cls bid) = some e →
      e.raw = RawProvider.createOf bid →
      lookupTok cW4.instances (Token.cls bid) = none →
      resolveF envW4 2 0 cW4 (Token.cls bid) =
        Except.error (Err.unregisteredToken (errName envW4 (Token.cls 0)))) :=
  resolve_unregistered_fails envW4 0 0 cW4 (Token.cls 0) rfl

/-- Container with class 0 provided by a fresh-object provider, Prototype. -/
def cW5 : Container :=
  (provideEx Container.empty (Token.cls 0) (RawProvider.fresh 0) Scope.Prototype).1

theorem prototype_scope_fresh_instances_witness :
    resolveF envW1 1 0 cW5 (Token.cls 0) =
      runProv envW1 (resolveF envW1 0) 0 cW5 (Entry.mk (RawProvider.fresh 0) Scope.Prototype).raw ∧
    (∀ cid, (Entry.mk (RawProvider.fresh 0) Scope.Prototype).raw = RawProvider.fresh cid →
      resolveF envW1 1 0 cW5 (Token.cls 0) = Except.ok (Value.obj cid 0 [], 1, cW5) ∧
      resolveF envW1 1 1 cW5 (Token.cls 0) = Except.ok (Value.obj cid 1 [], 2, cW5) ∧
      Value.obj cid 0 [] ≠ Value.obj cid 1 []) :=
  prototype_scope_fresh_instances envW1 0 0 cW5 (Token.cls 0)
    ⟨RawProvider.fresh 0, Scope.Prototype⟩ rfl rfl

/-- C10: when `provide` throws the duplicate-registration error, the check
happened before any mutation: the returned state is the original container,
registry and instance cache included, the originally registered provider is
still in place, and every subsequent resolve behaves exactly as before the
failed call. -/
theorem provide_duplicate_leaves_state (c : Container) (t : Token) (r : RawProvider)
    (s : Scope) (e : Err) (c' : Container)
    (h : provideEx c t r s = (c', some e)) :
    c' = c ∧ c'.dependencies = c.dependencies ∧ c'.instances = c.instances ∧
    e = Err.duplicateRegistration t ∧
    (∀ e0, lookupTok c.dependencies t = some e0 → lookupTok c'.dependencies t = some e0) ∧
    (∀ env f a t2, resolveF env f a c' t2 = resolveF env f a c t2) := by
  unfold provideEx at h
  cases hdep : lookupTok c.dependencies t with
  | none =>
    rw [hdep] at h
    simp at h
  | some e0 =>
    rw [hdep] at h
    simp only [Prod.mk.injEq, Option.some.injEq] at h
    obtain ⟨rfl, rfl⟩ := h
    refine ⟨rfl, rfl, rfl, rfl, ?_, ?_⟩
    · intro e1 h1; rw [hdep]; exact h1
    · intro env f a t2; rfl

theorem provide_duplicate_leaves_state_witness :
    cW1 = cW1 ∧ cW1.dependencies = cW1.dependencies ∧ cW1.instances = cW1.instances ∧
    Err.duplicateRegistration (Token.cls 0) = Err.duplicateRegistration (Token.cls 0) ∧
    (∀ e0, lookupTok cW1.dependencies (Token.cls 0) = some e0 →
      lookupTok cW1.dependencies (Token.cls 0) = some e0) ∧
    (∀ env f a t2, resolveF env f a cW1 t2 = resolveF env f a cW1 t2) :=
  provide_duplicate_leaves_state cW1 (Token.cls 0) (RawProvider.createOf 0) Scope.Prototype
    (Err.duplicateRegistration (Token.cls 0)) cW1 rfl

/-- C9 counterexample: two distinct named tokens that were never registered
produce syntactically identical errors, because the message interpolates
`type.name` and a JS string has no `name` property: the error reads
`Error resolving type undefined` and the offending token is not recoverable
from it. -/
theorem named_token_error_not_identifying :
    resolveF envW1 1 0 Container.empty (Token.named "named:A") =
      Except.error (Err.unregisteredToken "undefined") ∧
    resolveF envW1 1 0 Container.empty (Token.named "named:B") =
      Except.error (Err.unregisteredToken "undefined") ∧
    Token.named "named:A" ≠ Token.named "named:B" := by
  refine ⟨rfl, rfl, by decide⟩

/-- C9 amended: the unregistered-token error carries exactly the token's
`name` property: for a class token the class name (identifying the class by
name), but for a named string token the literal string "undefined", so a
named token is not recoverable from the error. -/
theorem unregistered_error_carries_name (env : Env) (f a : Nat) (c : Container) (t : Token)
    (h : lookupTok c.dependencies t = none) :
    resolveF env (f + 1) a c t = Except.error (Err.unregisteredToken (errName env t)) ∧
    (∀ s, t = Token.named s → errName env t = "undefined") ∧
    (∀ cid, t = Token.cls cid → errName env t = (env cid).nm) := by
  refine ⟨resolveF_unreg env f a c t h, ?_, ?_⟩
  · intro s hs; subst hs; rfl
  · intro cid hc; subst hc; rfl

theorem unregistered_error_carries_name_witness :
    resolveF envW1 1 0 Container.empty (Token.named "svc") =
      Except.error (Err.unregisteredToken (errName envW1 (Token.named "svc"))) ∧
    (∀ s, Token.named "svc" = Token.named s → errName envW1 (Token.named "svc") = "undefined") ∧
    (∀ cid, Token.named "svc" = Token.cls cid → errName envW1 (Token.named "svc") = (envW1 cid).nm) :=
  unregistered_error_carries_name envW1 0 0 Container.empty (Token.named "svc") rfl

/-- C8: a new container starts with an empty registry and empty instance
cache, and containers are isolated: registering the same class Singleton in
two independently created containers and resolving it in each (the global
allocator threaded through both runs) yields two distinct, not
identity-equal instances, each cached only in its own container. -/
theorem independent_containers_isolated (env : Env) (cid : Nat) (nm : String)
    (hA : env cid = { nm := nm, paramtypes := [], overrides := [] }) :
    Container.empty.instances = [] ∧ Container.empty.dependencies = [] ∧
    (∀ c1, Container.register Container.empty cid Scope.Singleton = Except.ok c1 →
      resolveF env 2 0 c1 (Token.cls cid) =
        Except.ok (Value.obj cid 0 [], 1,
          { c1 with instances := [(Token.cls cid, Value.obj cid 0 [])] }) ∧
      resolveF env 2 1 c1 (Token.cls cid) =
        Except.ok (Value.obj cid 1 [], 2,
          { c1 with instances := [(Token.cls cid, Value.obj cid 1 [])] }) ∧
      Value.obj cid 0 [] ≠ Value.obj cid 1 []) := by
  refine ⟨rfl, rfl, ?_⟩
  intro c1 hreg
  have hc1 : c1 =
      { instances := [],
        dependencies :=
          [(Token.cls cid, { raw := RawProvider.createOf cid, scope := Scope.Singleton })] } := by
    unfold Container.register provide provideEx at hreg
    simp [Container.empty, lookupTok, setAssoc] at hreg
    exact hreg.symm
  subst hc1
  have hstep : ∀ (a : Nat),
      resolveF env 2 a
        { instances := [],
          dependencies :=
            [(Token.cls cid, { raw := RawProvider.createOf cid, scope := Scope.Singleton })] }
        (Token.cls cid) =
      Except.ok (Value.obj cid a [], a + 1,
        { instances := [(Token.cls cid, Value.obj cid a [])],
          dependencies :=
            [(Token.cls cid, { raw := RawProvider.createOf cid, scope := Scope.Singleton })] }) := by
    intro a
    show resolveF env (1 + 1) a _ _ = _
    rw [resolveF_miss env 1 a _ (Token.cls cid)
      { raw := RawProvider.createOf cid, scope := Scope.Singleton }
      (by simp [lookupTok]) rfl (by simp [lookupTok])]
    have hrun : runProv env (resolveF env 1) a
        { instances := [],
          dependencies :=
            [(Token.cls cid, { raw := RawProvider.createOf cid, scope := Scope.Singleton })] }
        (RawProvider.createOf cid) =
        Except.ok (Value.obj cid a [], a + 1,
          ({ instances := [],
             dependencies :=
               [(Token.cls cid, { raw := RawProvider.createOf cid, scope := Scope.Singleton })] }
            : Container)) := by
      unfold runProv
      simp only []
      rw [hA]
      rfl
    rw [hrun]
    rfl
  refine ⟨?_, ?_, ?_⟩
  · have := hstep 0
    simpa [setAssoc] using this
  · have := hstep 1
    simpa [setAssoc] using this
  · intro hcontra
    injection hcontra with h1 h2 h3
    omega

theorem independent_containers_isolated_witness :
    Container.empty.instances = [] ∧ Container.empty.dependencies = [] ∧
    (∀ c1, Container.register Container.empty 0 Scope.Singleton = Except.ok c1 →
      resolveF envW1 2 0 c1 (Token.cls 0) =
        Except.ok (Value.obj 0 0 [], 1,
          { c1 with instances := [(Token.cls 0, Value.obj 0 0 [])] }) ∧
      resolveF envW1 2 1 c1 (Token.cls 0) =
        Except.ok (Value.obj 0 1 [], 2,
          { c1 with instances := [(Token.cls 0, Value.obj 0 1 [])] }) ∧
      Value.obj 0 0 [] ≠ Value.obj 0 1 []) :=
  independent_containers_isolated envW1 0 "A" rfl

/-- C6: an explicit per-parameter token override within the declared
parameter count replaces the declared parameter token at that index before
resolution: the parameter array of a class declaring `A` at position 0 with
an override binding position 0 to a named token contains the named token
only, and resolving the class passes the instance produced by the provider
registered under the named token as the constructor argument — no hypothesis
about the declared parameter type `A` is needed at all. -/
theorem override_token_replaces_declared (env : Env) (f a : Nat) (c : Container) (bid aid : Nat) (nm s : String)
    (v : Value) (sB : Scope)
    (hB : env bid = { nm := nm, paramtypes := [Token.cls aid], overrides := [(0, Token.named s)] })
    (hdepB : lookupTok c.dependencies (Token.cls bid) =
      some { raw := RawProvider.createOf bid, scope := sB })
    (hmiss : lookupTok c.instances (Token.cls bid) = none)
    (hdepN : lookupTok c.dependencies (Token.named s) =
      some { raw := RawProvider.const v, scope := Scope.Prototype }) :
    getParams (env bid) = [some (Token.named s)] ∧
    ∃ c', resolveF env (f + 2) a c (Token.cls bid) =
      Except.ok (Value.obj bid a [v], a + 1, c') := by
  have hgp : getParams (env bid) = [some (Token.named s)] := by rw [hB]; rfl
  refine ⟨hgp, ?_⟩
  have hnamed : resolveF env (f + 1) a c (Token.named s) = Except.ok (v, a, c) := by
    rw [resolveF_proto env f a c (Token.named s) _ hdepN rfl]
    rfl
  have hrun : runProv env (resolveF env (f + 1)) a c (RawProvider.createOf bid) =
      Except.ok (Value.obj bid a [v], a + 1, c) := by
    unfold runProv
    simp only []
    rw [hgp]
    simp [resolveList, hnamed]
  cases sB with
  | Prototype =>
    refine ⟨c, ?_⟩
    rw [show f + 2 = f + 1 + 1 from rfl,
      resolveF_proto env (f + 1) a c (Token.cls bid) _ hdepB rfl]
    exact hrun
  | Singleton =>
    refine ⟨{ c with
      instances := setAssoc c.instances (Token.cls bid) (Value.obj bid a [v]) }, ?_⟩
    rw [show f + 2 = f + 1 + 1 from rfl,
      resolveF_miss env (f + 1) a c (Token.cls bid) _ hdepB rfl hmiss, hrun]

/-- The parameter array of a class with no declared parameters and a single
override at index `k` (the JS key-write extends the array to length `k + 1`,
leaving holes below `k`). -/
theorem getParams_single_override (nm : String) (k : Nat) (tok : Token) :
    getParams { nm := nm, paramtypes := [], overrides := [(k, tok)] } =
      List.replicate k none ++ [some tok] := by
  unfold getParams
  have hlen : max ([] : List Token).length (ovLen [(k, tok)]) = k + 1 := by
    simp [ovLen]
  rw [hlen]
  have hg : ∀ i, slotOf [] [(k, tok)] i = if k = i then some tok else none := by
    intro i
    by_cases h : k = i <;> simp [slotOf, lookupNat, h]
  rw [List.range_succ, List.map_append]
  have h2 : (List.range k).map (slotOf [] [(k, tok)]) = List.replicate k none := by
    have h1 : ∀ x ∈ (List.range k).map (slotOf [] [(k, tok)]), x = none := by
      intro x hx
      obtain ⟨i, hi, rfl⟩ := List.mem_map.mp hx
      have hik : i < k := List.mem_range.mp hi
      rw [hg i, if_neg (by omega)]
    have := List.eq_replicate_of_mem h1
    simpa using this
  rw [h2]
  simp [hg]

/-- Resolving a parameter array made of `k` holes followed by one assigned
slot yields `k` times `undefined` followed by the resolved value. -/
theorem resolveList_replicate_hole
    (res : Nat → Container → Token → Except Err (Value × Nat × Container))
    (k : Nat) (a : Nat) (c : Container) (tok : Token) (v : Value)
    (h : res a c tok = Except.ok (v, a, c)) :
    resolveList res a c (List.replicate k none ++ [some tok]) =
      Except.ok (List.replicate k Value.undef ++ [v], a, c) := by
  induction k with
  | zero => simp [resolveList, h]
  | succ k ih =>
    rw [List.replicate_succ, List.cons_append]
    unfold resolveList
    rw [ih]
    simp [List.replicate_succ]

/-- C7 amended: an explicit override whose index `k` lies at or beyond the
declared parameter count (here zero declared parameters) is accepted without
error but is not a no-op: the key-write extends the parameter array, the
override token is resolved, and the constructor is invoked with `k + 1`
arguments — `undefined` at the unfilled positions and the override token's
instance last — rather than with the declared argument count. -/
theorem out_of_range_override_extends (env : Env) (f a : Nat) (c : Container)
    (bid k : Nat) (nm : String) (tok : Token) (v : Value)
    (hB : env bid = { nm := nm, paramtypes := [], overrides := [(k, tok)] })
    (hdepB : lookupTok c.dependencies (Token.cls bid) =
      some { raw := RawProvider.createOf bid, scope := Scope.Prototype })
    (hdepT : lookupTok c.dependencies tok =
      some { raw := RawProvider.const v, scope := Scope.Prototype }) :
    resolveF env (f + 2) a c (Token.cls bid) =
      Except.ok (Value.obj bid a (List.replicate k Value.undef ++ [v]), a + 1, c) := by
  have htok : resolveF env (f + 1) a c tok = Except.ok (v, a, c) := by
    rw [resolveF_proto env f a c tok _ hdepT rfl]; rfl
  rw [show f + 2 = f + 1 + 1 from rfl,
    resolveF_proto env (f + 1) a c (Token.cls bid) _ hdepB rfl]
  unfold runProv
  simp only []
  rw [hB, getParams_single_override nm k tok,
    resolveList_replicate_hole (resolveF env (f + 1)) k a c tok v htok]

def regAB (aid bid : Nat) : Container :=
  { instances := [],
    dependencies :=
      [(Token.cls aid, { raw := RawProvider.createOf aid, scope := Scope.Singleton }),
       (Token.cls bid, { raw := RawProvider.createOf bid, scope := Scope.Singleton })] }

def cAB1 (aid bid : Nat) : Container :=
  { regAB aid bid with instances := [(Token.cls aid, Value.obj aid 0 [])] }

def cAB2 (aid bid : Nat) : Container :=
  { regAB aid bid with
    instances := [(Token.cls aid, Value.obj aid 0 []),
                  (Token.cls bid, Value.obj bid 1 [Value.obj aid 0 []])] }

/-- C2: for a class `A` with no constructor parameters and a class `B`
declaring `A` as its only parameter, registering both Singleton in one fresh
container and resolving `B` constructs `B` by recursively resolving `A`
through the container and invoking the constructor with the resolved
arguments in order: the held `A` (allocation 0) is the very value a
subsequent `resolve(A)` returns, hence identity-equal. -/
theorem constructor_injection_shares_singleton (env : Env) (aid bid : Nat) (nmA nmB : String) (h : aid ≠ bid)
    (hA : env aid = { nm := nmA, paramtypes := [], overrides := [] })
    (hB : env bid = { nm := nmB, paramtypes := [Token.cls aid], overrides := [] }) :
    (Container.register Container.empty aid Scope.Singleton).bind
        (fun c1 => Container.register c1 bid Scope.Singleton) =
      Except.ok (regAB aid bid) ∧
    resolveF env 4 0 (regAB aid bid) (Token.cls bid) =
      Except.ok (Value.obj bid 1 [Value.obj aid 0 []], 2, cAB2 aid bid) ∧
    resolveF env 4 2 (cAB2 aid bid) (Token.cls aid) =
      Except.ok (Value.obj aid 0 [], 2, cAB2 aid bid) := by
  have hda : lookupTok (regAB aid bid).dependencies (Token.cls aid) =
      some { raw := RawProvider.createOf aid, scope := Scope.Singleton } := by
    simp [regAB, lookupTok]
  have hdb : lookupTok (regAB aid bid).dependencies (Token.cls bid) =
      some { raw := RawProvider.createOf bid, scope := Scope.Singleton } := by
    simp [regAB, lookupTok, h]
  refine ⟨?_, ?_, ?_⟩
  · unfold Container.register provide provideEx Container.empty
    simp [lookupTok, setAssoc, h, regAB, Except.bind]
  · have hresA : resolveF env 3 0 (regAB aid bid) (Token.cls aid) =
        Except.ok (Value.obj aid 0 [], 1, cAB1 aid bid) := by
      show resolveF env (2 + 1) 0 _ _ = _
      rw [resolveF_miss env 2 0 (regAB aid bid) (Token.cls aid) _ hda rfl
        (by simp [regAB, lookupTok])]
      have hrunA : runProv env (resolveF env 2) 0 (regAB aid bid)
          (RawProvider.createOf aid) =
          Except.ok (Value.obj aid 0 [], 1, regAB aid bid) := by
        unfold runProv
        simp only []
        rw [hA]
        rfl
      rw [hrunA]
      simp [regAB, cAB1, setAssoc]
    have hrunB : runProv env (resolveF env 3) 0 (regAB aid bid)
        (RawProvider.createOf bid) =
        Except.ok (Value.obj bid 1 [Value.obj aid 0 []], 2, cAB1 aid bid) := by
      unfold runProv
      simp only []
      rw [hB]
      have hgpB : getParams { nm := nmB, paramtypes := [Token.cls aid], overrides := [] } =
          [some (Token.cls aid)] := rfl
      rw [hgpB]
      simp [resolveList, hresA]
    show resolveF env (3 + 1) 0 _ _ = _
    rw [resolveF_miss env 3 0 (regAB aid bid) (Token.cls bid) _ hdb rfl
      (by simp [regAB, lookupTok]), hrunB]
    have : setAssoc (cAB1 aid bid).instances (Token.cls bid)
        (Value.obj bid 1 [Value.obj aid 0 []]) = (cAB2 aid bid).instances := by
      simp [cAB1, cAB2, regAB, setAssoc, h]
    simp only []
    rw [this]
    rfl
  · show resolveF env (3 + 1) 2 _ _ = _
    rw [resolveF_cached env 3 2 (cAB2 aid bid) (Token.cls aid)
      { raw := RawProvider.createOf aid, scope := Scope.Singleton } (Value.obj aid 0 [])
      (by simp [cAB2, regAB, lookupTok]) rfl (by simp [cAB2, regAB, lookupTok])]

/-- A pre-existing value bound to the named token in the C6 witness. -/
def vC6 : Value := Value.obj 9 50 []

/-- Class 2 declares class 0 as parameter 0, overridden to the named token
"svc". -/
def envC6 : Env := fun cid =>
  if cid = 2 then { nm := "B", paramtypes := [Token.cls 0], overrides := [(0, Token.named "svc")] }
  else { nm := "A", paramtypes := [], overrides := [] }

/-- Container with class 2 registered Prototype and the named token "svc"
provided by a constant provider (class 0 deliberately left unregistered). -/
def cC6 : Container :=
  (provideEx (provideEx Container.empty (Token.cls 2) (RawProvider.createOf 2) Scope.Prototype).1
    (Token.named "svc") (RawProvider.const vC6) Scope.Prototype).1

theorem override_token_replaces_declared_witness :
    getParams (envC6 2) = [some (Token.named "svc")] ∧
    ∃ c', resolveF envC6 2 0 cC6 (Token.cls 2) =
      Except.ok (Value.obj 2 0 [vC6], 1, c') :=
  override_token_replaces_declared envC6 0 0 cC6 2 0 "B" "svc" vC6 Scope.Prototype
    rfl rfl rfl rfl

/-- Class 1 declares zero constructor parameters but carries an override at
index 2 bound to the named token "X". -/
def envC7 : Env := fun cid =>
  if cid = 1 then { nm := "B", paramtypes := [], overrides := [(2, Token.named "X")] }
  else { nm := "A", paramtypes := [], overrides := [] }

/-- The same class table with the out-of-range override absent. -/
def envC7no : Env := fun cid =>
  if cid = 1 then { nm := "B", paramtypes := [], overrides := [] }
  else { nm := "A", paramtypes := [], overrides := [] }

/-- Container with class 1 registered Prototype and nothing else. -/
def cC7 : Container :=
  (provideEx Container.empty (Token.cls 1) (RawProvider.createOf 1) Scope.Prototype).1

/-- A pre-existing value for the out-of-range override token. -/
def vC7 : Value := Value.obj 7 100 []

/-- `cC7` with the named token "X" additionally provided by a constant
provider. -/
def cC7X : Container :=
  (provideEx cC7 (Token.named "X") (RawProvider.const vC7) Scope.Prototype).1

/-- C7 counterexample: with zero declared parameters and an override at
index 2, construction is not the same as with the override absent: if the
override token is unregistered, resolve fails with the unregistered-token
error (instead of succeeding with a zero-argument construction, as it does
once the override is removed), and if the override token is registered, the
constructor is invoked with three arguments (two `undefined` and the
override token's instance) instead of zero. -/
theorem out_of_range_override_not_noop :
    resolveF envC7 4 0 cC7 (Token.cls 1) =
      Except.error (Err.unregisteredToken "undefined") ∧
    resolveF envC7no 4 0 cC7 (Token.cls 1) =
      Except.ok (Value.obj 1 0 [], 1, cC7) ∧
    resolveF envC7 4 0 cC7X (Token.cls 1) =
      Except.ok (Value.obj 1 0 [Value.undef, Value.undef, vC7], 1, cC7X) :=
  ⟨rfl, rfl, rfl⟩

theorem out_of_range_override_extends_witness :
    resolveF envC7 2 0 cC7X (Token.cls 1) =
      Except.ok (Value.obj 1 0 (List.replicate 2 Value.undef ++ [vC7]), 1, cC7X) :=
  out_of_range_override_extends envC7 0 0 cC7X 1 2 "B" (Token.named "X") vC7
    rfl rfl rfl

theorem constructor_injection_shares_singleton_witness :
    (Container.register Container.empty 0 Scope.Singleton).bind
        (fun c1 => Container.register c1 1 Scope.Singleton) =
      Except.ok (regAB 0 1) ∧
    resolveF envW4 4 0 (regAB 0 1) (Token.cls 1) =
      Except.ok (Value.obj 1 1 [Value.obj 0 0 []], 2, cAB2 0 1) ∧
    resolveF envW4 4 2 (cAB2 0 1) (Token.cls 0) =
      Except.ok (Value.obj 0 0 [], 2, cAB2 0 1) :=
  constructor_injection_shares_singleton envW4 0 1 "A" "B" (by decide) rfl rfl
